import Mathlib

/-!
Shallow embedding of `src/SVG.py` (module `SVG`): opening existing SVG
documents, locating layers, building coordinate transformations and
injecting content.

Conventions of the embedding:
* XML elements (`xml.etree.ElementTree.Element`) are modelled by the
  inductive `Element`: a tag (with the namespace URI expanded into the
  tag, as ElementTree does), an attribute association list, and the
  ordered list of children.
* Python numbers entering the coordinate computations are modelled by `ℚ`
  (exact arithmetic in place of IEEE floats); `float` division by zero is
  modelled explicitly, returning `PyError.zeroDivisionError`.
* Fallible operations return `Except PyError`; mutating operations return
  the updated value next to the outcome, so that "the target is left
  untouched" is expressible.
* Python resolves a bare name in the local scope, then the module scope,
  at the moment the name is evaluated; a miss raises `NameError`.  The
  function `nameBound` models this lookup for the module `SVG.py`:
  `svgModuleNames` lists the names bound at its module level (imports and
  class statements); class attributes such as `ExistingDoc._NS` are NOT
  visible as bare names inside method bodies.
-/

namespace SVG

/-- Exception classes that the embedded code and its specification speak
about.  `parseError` is the module's own `ParseError`; `nameError`,
`typeError`, `valueError` and `zeroDivisionError` are the Python builtins;
`degenerateRangeError`, `layerNotFoundError` and `missingViewportError`
are the error kinds named by the specification (no class of these names
exists in `SVG.py`). -/
inductive PyError where
  | parseError
  | nameError
  | typeError
  | valueError
  | zeroDivisionError
  | degenerateRangeError
  | layerNotFoundError
  | missingViewportError
deriving DecidableEq

/-- An ElementTree element: expanded tag, attribute list, children. -/
inductive Element where
  | mk : String → List (String × String) → List Element → Element

/-- The tag of an element. -/
def Element.tag : Element → String
  | .mk t _ _ => t

/-- The attribute dictionary of an element (an association list). -/
def Element.attrs : Element → List (String × String)
  | .mk _ a _ => a

/-- The ordered children of an element. -/
def Element.children : Element → List Element
  | .mk _ _ cs => cs

/-- `el.get(name)` on an ElementTree element: the attribute value, or
`None` when the attribute is absent. -/
def Element.getAttr (e : Element) (n : String) : Option String :=
  e.attrs.lookup n

/-- `el.append(child)`: add `child` as the last child of `el`. -/
def Element.append : Element → Element → Element
  | .mk t a cs, child => .mk t a (cs ++ [child])

/-- Names bound at the module level of `SVG.py`: the two imports and the
five class statements.  `_NS` is a class attribute of `ExistingDoc`
(line 23), not a module-level name, and `inj` is bound nowhere. -/
def svgModuleNames : List String :=
  ["re", "ET", "ParseError", "ExistingDoc", "SVGDocInScale",
   "NumDocTrafo", "ScaledInjectionPoint"]

/-- Python name resolution inside a method body of `SVG.py`: a bare name
resolves iff it is a local variable or a module-level name. -/
def nameBound (locals : List String) (n : String) : Bool :=
  locals.contains n || svgModuleNames.contains n

/-- The expanded ElementTree tag of an `svg` root element. -/
def svgTag : String := "\x7bhttp://www.w3.org/2000/svg\x7dsvg"

/-- The expanded ElementTree tag of a group element `svg:g`, the
namespace `{'svg': 'http://www.w3.org/2000/svg'}` applied. -/
def svgGTag : String := "\x7bhttp://www.w3.org/2000/svg\x7dg"

/-- Separator characters of the viewBox attribute: the characters matched
by `[\s,]` in the regular expression of `ExistingDoc.viewBox`
(line 33). -/
def isSepChar (c : Char) : Bool :=
  c = ',' || c = ' ' || c = '\t' || c = '\n' || c = '\x0b' || c = '\x0c' || c = '\r'

/-- Worker for `tokenize`: split a character list at separator
characters, keeping the maximal non-empty runs in between.  `cur` holds
the current run, reversed. -/
def tokenizeChars (cur : List Char) : List Char → List (List Char)
  | [] => if cur = [] then [] else [cur.reverse]
  | c :: rest =>
    if isSepChar c then
      (if cur = [] then id else (cur.reverse :: ·)) (tokenizeChars [] rest)
    else
      tokenizeChars (c :: cur) rest

/-- Semantics of `re.findall("([^\s,]+)+", vbox)` (line 33): the list of
maximal runs of characters that are neither whitespace nor comma. -/
def tokenize (s : String) : List String :=
  (tokenizeChars [] s.toList).map (fun cs => String.mk cs)

/-- Decimal digit test. -/
def isDigitChar (c : Char) : Bool := '0' ≤ c && c ≤ '9'

/-- The natural number denoted by a list of decimal digits. -/
def natOfDigits (l : List Char) : Nat :=
  l.foldl (fun n c => 10 * n + (c.toNat - '0'.toNat)) 0

/-- Strip an optional leading sign; the flag is `true` for `-`. -/
def parseSign : List Char → Bool × List Char
  | '+' :: rest => (false, rest)
  | '-' :: rest => (true, rest)
  | cs => (false, cs)

/-- Negate when the flag asks for it. -/
def applySign (neg : Bool) (q : ℚ) : ℚ := if neg then -q else q

/-- The integer `±n`. -/
def applySignInt (neg : Bool) (n : Nat) : Int :=
  if neg then -(n : Int) else (n : Int)

/-- Accept an optional exponent part `e±ddd` after the mantissa `mant`
and require that nothing follows it. -/
def parseExponentPart (mant : ℚ) : List Char → Option ℚ
  | [] => some mant
  | c :: rest =>
    if c = 'e' || c = 'E' then
      match parseSign rest with
      | (eneg, rest2) =>
        let ed := rest2.takeWhile isDigitChar
        let rest3 := rest2.dropWhile isDigitChar
        if ed.isEmpty || !rest3.isEmpty then none
        else some (mant * (10 : ℚ) ^ (applySignInt eneg (natOfDigits ed)))
    else none

/-- Model of the numeric core of the Python builtin `float(token)` (an
external collaborator of `SVG.py`, applied at line 36): an optional
sign, then decimal digits with an optional fraction part, then an
optional exponent.  The special forms `inf`/`nan` and digit-grouping
underscores are outside the model.  Returns `none` exactly when `float`
raises `ValueError`. -/
def parseFloat (s : String) : Option ℚ :=
  match parseSign s.toList with
  | (neg, cs) =>
    let ipart := cs.takeWhile isDigitChar
    let rest1 := cs.dropWhile isDigitChar
    match rest1 with
    | '.' :: rest2 =>
      let fpart := rest2.takeWhile isDigitChar
      let rest3 := rest2.dropWhile isDigitChar
      if ipart.isEmpty && fpart.isEmpty then none
      else
        match parseExponentPart ((natOfDigits ipart : ℚ) +
            (natOfDigits fpart : ℚ) / (10 : ℚ) ^ fpart.length) rest3 with
        | some q => some (applySign neg q)
        | none => none
    | _ =>
      if ipart.isEmpty then none
      else
        match parseExponentPart (natOfDigits ipart : ℚ) rest1 with
        | some q => some (applySign neg q)
        | none => none

/-- `ExistingDoc.viewBox` (lines 28-40): read the root's `viewBox`
attribute.  Absent attribute: `None` (modelled `.ok none`).  Present:
tokenize; a token count other than four raises the module's `ParseError`
(line 35); otherwise `list(map(float, coords))` converts the tokens left
to right, and a token `float` cannot parse raises an uncaught
`ValueError`.  (The final `else` branch of the source is unreachable
here: an ElementTree attribute value is always a string.) -/
def ExistingDoc.viewBox (root : Element) : Except PyError (Option (List ℚ)) :=
  match root.getAttr "viewBox" with
  | none => .ok none
  | some vbox =>
    let coords := tokenize vbox
    if coords.length ≠ 4 then .error .parseError
    else
      match coords.mapM parseFloat with
      | some vals => .ok (some vals)
      | none => .error .valueError

/-- The predicate of the XPath `svg:g[@id='ID']` on one element: a group
element in the svg namespace whose `id` attribute equals `ID`. -/
def isLayerEl (id : String) (c : Element) : Bool :=
  c.tag == svgGTag && c.getAttr "id" == some id

/-- `ExistingDoc.getLayer` (lines 42-44):
`root.find("svg:g[@id='ID']", {'svg': ...})`.  An ElementTree `find`
with this path inspects only the direct children of `root`, in document
order, and returns the first match or `None`. -/
def ExistingDoc.getLayer (root : Element) (id : String) : Option Element :=
  root.children.find? (isLayerEl id)

/-- The elements an ElementTree `findall("svg:g[@id]", ...)` on the root
would return: the direct children that are svg groups carrying an `id`
attribute, in document order. -/
def findallGWithId (root : Element) : List Element :=
  root.children.filter (fun c => c.tag == svgGTag && (c.getAttr "id").isSome)

/-- The loop body of `ExistingDoc.getLayersByID_dict` (lines 57-64):
record each element whose id is requested, raising the module's
`ParseError` on a duplicate id. -/
def layersLoop (ids : List String) :
    List Element → List (String × Element) → Except PyError (List (String × Element))
  | [], result => .ok result
  | el :: rest, result =>
    match el.getAttr "id" with
    | none => layersLoop ids rest result
    | some i =>
      if ids.contains i then
        if (result.lookup i).isSome then .error .parseError
        else layersLoop ids rest (result ++ [(i, el)])
      else layersLoop ids rest result

/-- `ExistingDoc.getLayersByID_dict` (lines 46-64).  Before the
`findall` call can run, its second argument, the bare name `_NS`
(line 58), is evaluated; at that point the local names are `self`,
`ids`, `elementXpath` and `result`, and `_NS` is bound neither locally
nor at module level (it is the class attribute `ExistingDoc._NS`), so
the evaluation raises `NameError` and the scan never starts. -/
def ExistingDoc.getLayersByID_dict (root : Element) (ids : List String) :
    Except PyError (List (String × Element)) :=
  if nameBound ["self", "ids", "elementXpath", "result"] "_NS" then
    layersLoop ids (findallGWithId root) []
  else
    .error .nameError

/-- The state `NumDocTrafo.__init__` (lines 109-160) leaves on the
instance: the world ranges, the document box origin, the two scale
factors and the two dynamically built transformation closures. -/
structure NumDocTrafo where
  h1 : ℚ
  h2 : ℚ
  v1 : ℚ
  v2 : ℚ
  x1 : ℚ
  y1 : ℚ
  HXscale : ℚ
  VYscale : ℚ
  h2x : ℚ → ℚ
  v2y : ℚ → ℚ

/-- The vertical half of `NumDocTrafo.__init__` (lines 146-160), run
after the horizontal half produced `HXscale` and `h2x`.  With a custom
`deltaFnV` the scale is `width / deltaFnV(v1, v2)` and
`v2y(v) = deltaFnV(v1, v)*scale + y1`; with the default it is
`width / (v2 - v1)` and `v2y(v) = (v - v1)*scale + y1`.  Note the
numerator is `width` in both branches (lines 148 and 156), exactly as in
the source.  A zero denominator raises `ZeroDivisionError`. -/
def NumDocTrafo.initV (x1 y1 width h1 h2 v1 v2 HXsc : ℚ) (hmap : ℚ → ℚ)
    (deltaFnV : Option (ℚ → ℚ → ℚ)) : Except PyError NumDocTrafo :=
  match deltaFnV with
  | some dV =>
    if dV v1 v2 = 0 then .error .zeroDivisionError
    else
      let sc := width / dV v1 v2
      .ok ⟨h1, h2, v1, v2, x1, y1, HXsc, sc, hmap, fun v => dV v1 v * sc + y1⟩
  | none =>
    if v2 - v1 = 0 then .error .zeroDivisionError
    else
      let sc := width / (v2 - v1)
      .ok ⟨h1, h2, v1, v2, x1, y1, HXsc, sc, hmap, fun v => (v - v1) * sc + y1⟩

/-- `NumDocTrafo.__init__` (lines 109-160).  Unpacking
`self.x1, self.y1, width, height = viewBox` raises `TypeError` when
`viewBox` is `None` and `ValueError` when it has a length other than
four.  Then the horizontal scale and map are built (lines 130-144): with
a custom `deltaFnH` the scale is `width / deltaFnH(h1, h2)` and
`h2x(h) = deltaFnH(h1, h)*scale + x1`; with the default it is
`width / (h2 - h1)` and `h2x(h) = (h - h1)*scale + x1`.  A zero
denominator raises `ZeroDivisionError`.  The vertical half follows in
`NumDocTrafo.initV`. -/
def NumDocTrafo.init (viewBox : Option (List ℚ)) (hrange vrange : ℚ × ℚ)
    (deltaFnH deltaFnV : Option (ℚ → ℚ → ℚ)) : Except PyError NumDocTrafo :=
  match viewBox with
  | none => .error .typeError
  | some vb =>
    match vb with
    | [x1, y1, width, _height] =>
      let h1 := hrange.1
      let h2 := hrange.2
      let v1 := vrange.1
      let v2 := vrange.2
      match deltaFnH with
      | some dH =>
        if dH h1 h2 = 0 then .error .zeroDivisionError
        else
          let sc := width / dH h1 h2
          NumDocTrafo.initV x1 y1 width h1 h2 v1 v2 sc
            (fun h => dH h1 h * sc + x1) deltaFnV
      | none =>
        if h2 - h1 = 0 then .error .zeroDivisionError
        else
          let sc := width / (h2 - h1)
          NumDocTrafo.initV x1 y1 width h1 h2 v1 v2 sc
            (fun h => (h - h1) * sc + x1) deltaFnV
    | _ => .error .valueError

/-- A `ScaledInjectionPoint` (lines 174-186): the transform state of its
`NumDocTrafo` base class plus the target element.  `getLayer` can return
`None`, and the constructor stores whatever it received, so the target
is an `Option Element`. -/
structure ScaledInjectionPoint where
  trafo : NumDocTrafo
  target : Option Element

/-- The kinds of value a caller can pass to
`ScaledInjectionPoint.inject`: an ElementTree element, a string, or
anything else (`other`, e.g. a number). -/
inductive Content where
  | element (e : Element)
  | string (s : String)
  | other

/-- `ScaledInjectionPoint.inject` (lines 188-195) for an injection point
whose target is the element `target`.  `fromstring` models
`ET.fromstring` (an external collaborator): `some node` for a
well-formed fragment, `none` when it raises `ET.ParseError`.  The
element branch (line 190) appends the bare name `inj`; evaluating `inj`
raises `NameError` before `append` is called, because the local names
are just `self` and `content` and `inj` is not a module-level name, so
the target is left untouched.  The string branch parses `content` and
appends the node; a parse failure (and a `TypeError` for a non-string,
non-element `content`) is caught and re-raised as the module's
`ParseError` (lines 194-195), again leaving the target untouched.  The
pair returned is (outcome, target after the call). -/
def ScaledInjectionPoint.inject (fromstring : String → Option Element)
    (target : Element) (content : Content) : Except PyError Unit × Element :=
  match content with
  | .element _ =>
    if nameBound ["self", "content"] "inj" then
      (.ok (), target)
    else
      (.error .nameError, target)
  | .string s =>
    match fromstring s with
    | some node => (.ok (), target.append node)
    | none => (.error .parseError, target)
  | .other => (.error .parseError, target)

/-- `SVGDocInScale.getLayerInjector` (lines 82-92): evaluate
`self.getLayer(id)` (which never raises), then `self.viewBox()` (which
can raise), then construct the `ScaledInjectionPoint`, whose
`NumDocTrafo.__init__` consumes the viewBox value and the ranges
together with the delta functions stored at document construction. -/
def SVGDocInScale.getLayerInjector (root : Element) (id : String)
    (hrange vrange : ℚ × ℚ) (deltaFnH deltaFnV : Option (ℚ → ℚ → ℚ)) :
    Except PyError ScaledInjectionPoint :=
  let layer := ExistingDoc.getLayer root id
  match ExistingDoc.viewBox root with
  | .error e => .error e
  | .ok vb =>
    match NumDocTrafo.init vb hrange vrange deltaFnH deltaFnV with
    | .error e => .error e
    | .ok t => .ok ⟨t, layer⟩

/-- Observation: the value of `h2x` at `a`, when the construction
succeeded. -/
def trafoH2xAt (r : Except PyError NumDocTrafo) (a : ℚ) : Option ℚ :=
  match r with
  | .ok t => some (t.h2x a)
  | .error _ => none

/-- Observation: the value of `v2y` at `a`, when the construction
succeeded. -/
def trafoV2yAt (r : Except PyError NumDocTrafo) (a : ℚ) : Option ℚ :=
  match r with
  | .ok t => some (t.v2y a)
  | .error _ => none

/-- Observation: the target of a successfully constructed injection
point (`some target` on success, `none` when an error was raised). -/
def injectorTargetOf (r : Except PyError ScaledInjectionPoint) :
    Option (Option Element) :=
  match r with
  | .ok _p => some _p.target
  | .error _ => none

/-- Observation: the error a computation raised, if any. -/
def errorOf {α : Type} (r : Except PyError α) : Option PyError :=
  match r with
  | .ok _ => none
  | .error e => some e

mutual

/-- Modelled from the spec (claim C8's reading of `getLayer`): search
the direct AND nested group-like elements in document order and return
the first one whose `id` attribute equals the given identifier.  This is
the comparison definition; the source's `getLayer` inspects direct
children only. -/
def specSearchLayer (id : String) : Element → Option Element
  | .mk _ _ cs => specSearchLayerList id cs

/-- Worker of `specSearchLayer`: pre-order search through a list of
sibling subtrees. -/
def specSearchLayerList (id : String) : List Element → Option Element
  | [] => none
  | c :: rest =>
    if isLayerEl id c then some c
    else
      match specSearchLayer id c with
      | some r => some r
      | none => specSearchLayerList id rest

end

/-- A bare circle element, used as injected content. -/
def circleEl : Element := .mk "circle" [] []

/-- A bare rect element, used as injected content. -/
def rectEl : Element := .mk "rect" [] []

/-- A layer `<svg:g id="plot"/>` with no children. -/
def gPlot : Element := .mk svgGTag [("id", "plot")] []

/-- First of two layers sharing the id `dup`. -/
def gDup1 : Element := .mk svgGTag [("id", "dup")] []

/-- Second of two layers sharing the id `dup`. -/
def gDup2 : Element := .mk svgGTag [("id", "dup"), ("x", "1")] []

/-- A nested layer `<svg:g id="inner"/>`. -/
def gInner : Element := .mk svgGTag [("id", "inner")] []

/-- A layer `<svg:g id="outer">` containing `gInner`. -/
def gOuter : Element := .mk svgGTag [("id", "outer")] [gInner]

/-- A document with viewBox `0 0 100 50` and one layer `plot`. -/
def docWithBox : Element := .mk svgTag [("viewBox", "0 0 100 50")] [gPlot]

/-- A document without a viewBox attribute. -/
def docNoBox : Element := .mk svgTag [] [gPlot]

/-- A document whose viewBox has four tokens, one of them
non-numeric. -/
def docBadBox : Element := .mk svgTag [("viewBox", "0 0 a 50")] [gPlot]

/-- A document with two direct layers sharing the id `dup`. -/
def dupDoc : Element := .mk svgTag [("viewBox", "0 0 100 50")] [gDup1, gDup2]

/-- A document whose only `inner` layer sits nested inside the layer
`outer`. -/
def nestedDoc : Element := .mk svgTag [("viewBox", "0 0 100 50")] [gOuter]

/-- A concrete stand-in for `ET.fromstring` in witnesses: it parses the
two well-formed fragments used there and rejects everything else. -/
def fsDemo : String → Option Element := fun s =>
  if s = "<circle/>" then some circleEl
  else if s = "<rect/>" then some rectEl
  else none

/-- A document whose viewBox has five tokens. -/
def docFiveTok : Element := .mk svgTag [("viewBox", "0 0 100 50 7")] [gPlot]

/-- `List.find?` returns the head of the filtered list. -/
theorem find?_eq_head?_filter {α : Type} (p : α → Bool) (l : List α) :
    l.find? p = (l.filter p).head? := by
  induction l with
  | nil => rfl
  | cons a tl ih =>
    by_cases h : p a
    · simp [List.find?, List.filter, h]
    · simp [List.find?, List.filter, h]

/-- Claim C9 (confirmed): for every loaded document and every list of
requested identifiers, `getLayersByID_dict` raises `NameError`, because
the bare name `_NS` in its `findall` call resolves neither locally nor
at module scope (the namespace table is the class attribute
`ExistingDoc._NS`); the arguments of `findall` are evaluated before any
element is inspected, so the operation never returns a mapping and never
reaches its duplicate-id `ParseError` branch. -/
theorem C9_layers_dict_name_error (root : Element) (ids : List String) :
    ExistingDoc.getLayersByID_dict root ids = .error .nameError := rfl

/-- Claim C10 (confirmed): for every injection point bound to a target
element, injecting an already-constructed element raises `NameError`
(line 190 appends the undefined name `inj` instead of `content`) and
leaves the target, children included, completely unchanged. -/
theorem C10_element_inject_name_error (fs : String → Option Element)
    (target : Element) (e : Element) :
    ScaledInjectionPoint.inject fs target (.element e) =
      (.error .nameError, target) := rfl

/-- Claim C7 (code bug): the bulk lookup on the document with two layers
sharing the requested id `dup` raises `NameError` instead of the
documented duplicate-id `ParseError`, and on a duplicate-free document
it also raises `NameError` instead of returning the mapping; the scan
loop itself (`layersLoop`), were it ever reached, would behave exactly
as the claim states, raising `ParseError` on the duplicate and returning
the present subset otherwise. -/
theorem C7_duplicate_lookup_evaluation :
    ExistingDoc.getLayersByID_dict dupDoc ["dup"] = .error .nameError ∧
    ExistingDoc.getLayersByID_dict docWithBox ["plot"] = .error .nameError ∧
    layersLoop ["dup"] (findallGWithId dupDoc) [] = .error .parseError ∧
    layersLoop ["plot"] (findallGWithId docWithBox) [] = .ok [("plot", gPlot)] :=
  ⟨rfl, rfl, rfl, rfl⟩

/-- Claim C5 (code bug): evaluating `inject` on element content at a
concrete injection point: instead of appending the given element, the
call raises `NameError` (undefined name `inj`) and the target keeps its
child list. -/
theorem C5_element_inject_evaluation :
    ScaledInjectionPoint.inject fsDemo gPlot (.element circleEl) =
      (.error .nameError, gPlot) := rfl

/-- Claim C4 (confirmed): injecting a well-formed fragment string into a
target with N children yields outcome OK and exactly N+1 children, the
newly parsed node last and the prior N unchanged in content and order;
injecting a malformed string leaves the children at N, the target
untouched, and raises `ParseError`; two successive successful injections
append in call order without removing or reordering anything. -/
theorem C4_inject_string_semantics (fs : String → Option Element)
    (target : Element) (s m t : String) (n1 n2 : Element)
    (hs : fs s = some n1) (hm : fs m = none) (ht : fs t = some n2) :
    (ScaledInjectionPoint.inject fs target (.string s)).1 = .ok () ∧
    (ScaledInjectionPoint.inject fs target (.string s)).2.children =
      target.children ++ [n1] ∧
    (ScaledInjectionPoint.inject fs target (.string s)).2.children.length =
      target.children.length + 1 ∧
    (ScaledInjectionPoint.inject fs target (.string m)).1 = .error .parseError ∧
    (ScaledInjectionPoint.inject fs target (.string m)).2 = target ∧
    (ScaledInjectionPoint.inject fs
        (ScaledInjectionPoint.inject fs target (.string s)).2 (.string t)).2.children =
      target.children ++ [n1, n2] := by
  cases target with
  | mk tg a cs =>
    simp [ScaledInjectionPoint.inject, hs, hm, ht, Element.append, Element.children]

/-- Witness for C4 at a concrete target, fragment strings and parser. -/
theorem C4_inject_string_semantics_witness :
    (ScaledInjectionPoint.inject fsDemo gPlot (.string "<circle/>")).1 = .ok () ∧
    (ScaledInjectionPoint.inject fsDemo gPlot (.string "<circle/>")).2.children =
      gPlot.children ++ [circleEl] ∧
    (ScaledInjectionPoint.inject fsDemo gPlot (.string "<circle/>")).2.children.length =
      gPlot.children.length + 1 ∧
    (ScaledInjectionPoint.inject fsDemo gPlot (.string "<bad")).1 = .error .parseError ∧
    (ScaledInjectionPoint.inject fsDemo gPlot (.string "<bad")).2 = gPlot ∧
    (ScaledInjectionPoint.inject fsDemo
        (ScaledInjectionPoint.inject fsDemo gPlot (.string "<circle/>")).2
        (.string "<rect/>")).2.children = gPlot.children ++ [circleEl, rectEl] :=
  C4_inject_string_semantics fsDemo gPlot "<circle/>" "<bad" "<rect/>"
    circleEl rectEl rfl rfl rfl

/-- Claim C6 (amended): `viewBox` returns no box (without an error) when
the attribute is absent; with the attribute present it tokenizes on
whitespace/comma, raises the module's `ParseError` for any token count
other than four, returns the four parsed values when all four tokens are
numeric, and raises `ValueError` (the uncaught numeric-conversion error,
not `ParseError`) when a token is non-numeric. -/
theorem C6_viewBox_semantics (root : Element) (s : String) (q : List ℚ) :
    (root.getAttr "viewBox" = none → ExistingDoc.viewBox root = .ok none) ∧
    (root.getAttr "viewBox" = some s → (tokenize s).length ≠ 4 →
      ExistingDoc.viewBox root = .error .parseError) ∧
    (root.getAttr "viewBox" = some s → (tokenize s).length = 4 →
      (tokenize s).mapM parseFloat = some q → ExistingDoc.viewBox root = .ok (some q)) ∧
    (root.getAttr "viewBox" = some s → (tokenize s).length = 4 →
      (tokenize s).mapM parseFloat = none →
      ExistingDoc.viewBox root = .error .valueError) := by
  refine ⟨?_, ?_, ?_, ?_⟩
  · intro h0
    simp [ExistingDoc.viewBox, h0]
  · intro h0 hlen
    simp [ExistingDoc.viewBox, h0, hlen]
  · intro h0 hlen hmap
    simp only [List.mapM] at hmap
    simp [ExistingDoc.viewBox, h0, hlen, hmap]
  · intro h0 hlen hmap
    simp only [List.mapM] at hmap
    simp [ExistingDoc.viewBox, h0, hlen, hmap]

/-- Witness for C6: one concrete document per case. -/
theorem C6_viewBox_semantics_witness :
    ExistingDoc.viewBox docNoBox = .ok none ∧
    ExistingDoc.viewBox docFiveTok = .error .parseError ∧
    ExistingDoc.viewBox docWithBox = .ok (some [0, 0, 100, 50]) ∧
    ExistingDoc.viewBox docBadBox = .error .valueError :=
  ⟨(C6_viewBox_semantics docNoBox "" []).1 rfl,
   (C6_viewBox_semantics docFiveTok "0 0 100 50 7" []).2.1 rfl (by decide),
   (C6_viewBox_semantics docWithBox "0 0 100 50" [0, 0, 100, 50]).2.2.1 rfl rfl rfl,
   (C6_viewBox_semantics docBadBox "0 0 a 50" []).2.2.2 rfl rfl rfl⟩

/-- Counterexample to C6 as stated: on the four-token attribute
`0 0 a 50` with a non-numeric token, `viewBox` raises `ValueError`, not
the `ParseError` the claim requires. -/
theorem C6_nonnumeric_token_counterexample :
    ExistingDoc.viewBox docBadBox = .error .valueError ∧
    (Except.error PyError.valueError : Except PyError (Option (List ℚ))) ≠
      .error .parseError :=
  ⟨rfl, by simp⟩

/-- Claim C8 (amended): `getLayer` searches only the DIRECT children of
the root, in document order, for a group element in the svg namespace
whose `id` attribute equals the identifier; it returns the first such
child (the head of the filtered child list) and returns no element —
without raising — exactly when no direct child matches. -/
theorem C8_getLayer_direct_search (root : Element) (id : String) :
    ExistingDoc.getLayer root id = (root.children.filter (isLayerEl id)).head? ∧
    (ExistingDoc.getLayer root id = none ↔
      ∀ c ∈ root.children, isLayerEl id c = false) := by
  constructor
  · exact find?_eq_head?_filter (isLayerEl id) root.children
  · simp [ExistingDoc.getLayer, List.find?_eq_none]

/-- Counterexample to C8 as stated: in `nestedDoc` the only layer with
id `inner` is nested inside the layer `outer`; a search through direct
AND nested groups (the claim's reading, `specSearchLayer`) finds it, but
`getLayer` returns nothing. -/
theorem C8_nested_layer_counterexample :
    ExistingDoc.getLayer nestedDoc "inner" = none ∧
    specSearchLayer "inner" nestedDoc = some gInner :=
  ⟨rfl, rfl⟩

/-- Claim C1 (amended): for a transform built with the default delta
functions from box `(x1, y1, w, ht)` and nondegenerate ranges, the
horizontal map sends the range endpoints exactly to the box's near and
far horizontal edges, `h2x h1 = x1` and `h2x h2 = x1 + w`; the vertical
map sends `v1` to `y1`, but — because both scale factors divide the box
WIDTH (lines 140 and 156) — it sends `v2` to `y1 + w`, which equals the
far vertical edge `y1 + ht` only when the box is square. -/
theorem C1_endpoint_mapping (x1 y1 w ht h1 h2 v1 v2 : ℚ)
    (hh : h2 ≠ h1) (hv : v2 ≠ v1) :
    trafoH2xAt (NumDocTrafo.init (some [x1, y1, w, ht]) (h1, h2) (v1, v2) none none) h1 =
      some x1 ∧
    trafoH2xAt (NumDocTrafo.init (some [x1, y1, w, ht]) (h1, h2) (v1, v2) none none) h2 =
      some (x1 + w) ∧
    trafoV2yAt (NumDocTrafo.init (some [x1, y1, w, ht]) (h1, h2) (v1, v2) none none) v1 =
      some y1 ∧
    trafoV2yAt (NumDocTrafo.init (some [x1, y1, w, ht]) (h1, h2) (v1, v2) none none) v2 =
      some (y1 + w) := by
  have hh0 : h2 - h1 ≠ 0 := sub_ne_zero.mpr hh
  have hv0 : v2 - v1 ≠ 0 := sub_ne_zero.mpr hv
  simp only [NumDocTrafo.init, NumDocTrafo.initV, if_neg hh0, if_neg hv0,
    trafoH2xAt, trafoV2yAt]
  refine ⟨?_, ?_, ?_, ?_⟩
  · rw [sub_self, zero_mul, zero_add]
  · rw [Option.some_inj]
    field_simp
    ring
  · rw [sub_self, zero_mul, zero_add]
  · rw [Option.some_inj]
    field_simp
    ring

/-- Witness for C1 at box `0 0 100 50`, ranges `(0,10)` and `(0,5)`. -/
theorem C1_endpoint_mapping_witness :
    trafoH2xAt (NumDocTrafo.init (some [0, 0, 100, 50]) (0, 10) (0, 5) none none) 0 =
      some 0 ∧
    trafoH2xAt (NumDocTrafo.init (some [0, 0, 100, 50]) (0, 10) (0, 5) none none) 10 =
      some (0 + 100) ∧
    trafoV2yAt (NumDocTrafo.init (some [0, 0, 100, 50]) (0, 10) (0, 5) none none) 0 =
      some 0 ∧
    trafoV2yAt (NumDocTrafo.init (some [0, 0, 100, 50]) (0, 10) (0, 5) none none) 5 =
      some (0 + 100) :=
  C1_endpoint_mapping 0 0 100 50 0 10 0 5 (by norm_num) (by norm_num)

/-- Counterexample to C1 as stated: for the box `0 0 100 50` and
vertical range `(0, 5)`, the claim requires `v2y 5 = y1 + height = 50`,
but the constructed transform yields `v2y 5 = 100 = y1 + width`. -/
theorem C1_vertical_edge_counterexample :
    trafoV2yAt (NumDocTrafo.init (some [0, 0, 100, 50]) (0, 10) (0, 5) none none) 5 =
      some 100 ∧
    some (100 : ℚ) ≠ some ((0 : ℚ) + 50) := by
  constructor
  · norm_num [NumDocTrafo.init, NumDocTrafo.initV, trafoV2yAt]
  · norm_num

/-- Claim C2 (amended): construction fails with the builtin
`ZeroDivisionError` — the module defines no `DegenerateRangeError` —
whenever the active delta of an axis's endpoints evaluates to zero: with
the default deltas when `h1 = h2` (and, the horizontal axis passing,
when `v1 = v2`), and with custom delta functions when the respective
endpoint delta is zero.  Division by zero is never silently
tolerated. -/
theorem C2_zero_delta_raises (x1 y1 w ht h1 h2 v1 v2 : ℚ) (dH dV : ℚ → ℚ → ℚ) :
    (h1 = h2 →
      NumDocTrafo.init (some [x1, y1, w, ht]) (h1, h2) (v1, v2) none none =
        .error .zeroDivisionError) ∧
    (v1 = v2 → h1 ≠ h2 →
      NumDocTrafo.init (some [x1, y1, w, ht]) (h1, h2) (v1, v2) none none =
        .error .zeroDivisionError) ∧
    (dH h1 h2 = 0 →
      NumDocTrafo.init (some [x1, y1, w, ht]) (h1, h2) (v1, v2) (some dH) (some dV) =
        .error .zeroDivisionError) ∧
    (dV v1 v2 = 0 → dH h1 h2 ≠ 0 →
      NumDocTrafo.init (some [x1, y1, w, ht]) (h1, h2) (v1, v2) (some dH) (some dV) =
        .error .zeroDivisionError) := by
  refine ⟨?_, ?_, ?_, ?_⟩
  · intro h
    have h0 : h2 - h1 = 0 := by rw [h, sub_self]
    simp [NumDocTrafo.init, h0]
  · intro hvv hneq
    have h0 : h2 - h1 ≠ 0 := sub_ne_zero.mpr (Ne.symm hneq)
    have hv0 : v2 - v1 = 0 := by rw [hvv, sub_self]
    simp [NumDocTrafo.init, NumDocTrafo.initV, h0, hv0]
  · intro h
    simp [NumDocTrafo.init, h]
  · intro hv0 hH
    simp [NumDocTrafo.init, NumDocTrafo.initV, hv0, hH]

/-- Witness for C2, one concrete instance per zero-delta case. -/
theorem C2_zero_delta_raises_witness :
    NumDocTrafo.init (some [0, 0, 100, 50]) (1, 1) (0, 1) none none =
      .error .zeroDivisionError ∧
    NumDocTrafo.init (some [0, 0, 100, 50]) (0, 1) (2, 2) none none =
      .error .zeroDivisionError ∧
    NumDocTrafo.init (some [0, 0, 100, 50]) (3, 3) (0, 1) (some (fun a b => b - a))
      (some (fun a b => b - a)) = .error .zeroDivisionError ∧
    NumDocTrafo.init (some [0, 0, 100, 50]) (0, 1) (4, 4) (some (fun a b => b - a))
      (some (fun a b => b - a)) = .error .zeroDivisionError :=
  ⟨(C2_zero_delta_raises 0 0 100 50 1 1 0 1 (fun a b => b - a) (fun a b => b - a)).1
      rfl,
   (C2_zero_delta_raises 0 0 100 50 0 1 2 2 (fun a b => b - a) (fun a b => b - a)).2.1
      rfl (by norm_num),
   (C2_zero_delta_raises 0 0 100 50 3 3 0 1 (fun a b => b - a)
      (fun a b => b - a)).2.2.1 (by norm_num),
   (C2_zero_delta_raises 0 0 100 50 0 1 4 4 (fun a b => b - a)
      (fun a b => b - a)).2.2.2 (by norm_num) (by norm_num)⟩

/-- Counterexample to C2 as stated: constructing with `h1 = h2 = 1`
under the default delta raises `ZeroDivisionError`, which is not the
`DegenerateRangeError` the claim names (no such class exists in the
module). -/
theorem C2_error_class_counterexample :
    errorOf (NumDocTrafo.init (some [0, 0, 100, 50]) (1, 1) (0, 1) none none) =
      some .zeroDivisionError ∧
    some PyError.zeroDivisionError ≠ some PyError.degenerateRangeError := by
  constructor
  · norm_num [NumDocTrafo.init, errorOf]
  · decide

/-- Claim C3 (amended): when the document's viewport box is absent,
`getLayerInjector` fails with the builtin `TypeError` (unpacking `None`
in `NumDocTrafo.__init__`), not with a `MissingViewportError`; when the
requested layer is not found (the viewport parsing and the ranges being
good), no error is raised at all — the caller receives a constructed
`ScaledInjectionPoint` whose target is `None`. -/
theorem C3_orchestrator_failures (root : Element) (id : String)
    (hr vr : ℚ × ℚ) (x1 y1 w ht : ℚ) :
    (ExistingDoc.viewBox root = .ok none →
      SVGDocInScale.getLayerInjector root id hr vr none none = .error .typeError) ∧
    (ExistingDoc.getLayer root id = none →
      ExistingDoc.viewBox root = .ok (some [x1, y1, w, ht]) →
      hr.2 ≠ hr.1 → vr.2 ≠ vr.1 →
      injectorTargetOf (SVGDocInScale.getLayerInjector root id hr vr none none) =
        some none) := by
  constructor
  · intro hvb
    simp [SVGDocInScale.getLayerInjector, hvb, NumDocTrafo.init]
  · intro hl hvb hhr hvr
    have hh0 : hr.2 - hr.1 ≠ 0 := sub_ne_zero.mpr hhr
    have hv0 : vr.2 - vr.1 ≠ 0 := sub_ne_zero.mpr hvr
    simp [SVGDocInScale.getLayerInjector, hl, hvb, NumDocTrafo.init,
      NumDocTrafo.initV, hh0, hv0, injectorTargetOf]

/-- Witness for C3: the two failure shapes at concrete documents. -/
theorem C3_orchestrator_failures_witness :
    SVGDocInScale.getLayerInjector docNoBox "plot" (0, 1) (0, 1) none none =
      .error .typeError ∧
    injectorTargetOf (SVGDocInScale.getLayerInjector docWithBox "absent" (0, 1) (0, 1)
      none none) = some none :=
  ⟨(C3_orchestrator_failures docNoBox "plot" (0, 1) (0, 1) 0 0 100 50).1 rfl,
   (C3_orchestrator_failures docWithBox "absent" (0, 1) (0, 1) 0 0 100 50).2
      rfl rfl (by norm_num) (by norm_num)⟩

/-- Counterexample to C3 as stated: requesting the absent layer `absent`
from `docWithBox` raises no `LayerNotFoundError` — the call succeeds and
hands the caller an injection point (with target `None`); requesting
`plot` from `docNoBox`, whose viewport box is absent, raises
`TypeError`, not `MissingViewportError`. -/
theorem C3_no_special_errors_counterexample :
    injectorTargetOf (SVGDocInScale.getLayerInjector docWithBox "absent" (0, 1) (0, 1)
      none none) = some none ∧
    errorOf (SVGDocInScale.getLayerInjector docNoBox "plot" (0, 1) (0, 1) none none) =
      some .typeError ∧
    some PyError.typeError ≠ some PyError.layerNotFoundError ∧
    some PyError.typeError ≠ some PyError.missingViewportError := by
  refine ⟨?_, rfl, by decide, by decide⟩
  have hvb : ExistingDoc.viewBox docWithBox = .ok (some [0, 0, 100, 50]) := rfl
  have hl : ExistingDoc.getLayer docWithBox "absent" = none := rfl
  norm_num [SVGDocInScale.getLayerInjector, hvb, hl, NumDocTrafo.init,
    NumDocTrafo.initV, injectorTargetOf]

end SVG
